import Mathlib

/-!
Verification development for the `stim2qpic` backend (`src/backend/app.py`).

The application is a Flask HTTP backend with three routes:
  * `/check_point`            (GET)  - health check, returns plain text;
  * `/api/stim-to-qpic`       (POST) - stub conversion endpoint;
  * `/api/qpic-to-svg`        (POST) - renders qpic code to SVG by calling the
    `qpic` library (capturing its stdout), writing a TeX wrapper, running
    `pdflatex`, running `pdf2svg`, and returning the SVG plus TikZ as JSON.

External behaviour (the `qpic` library, the `pdflatex` and `pdf2svg` binaries,
the temporary-directory path chosen by `tempfile`) is modelled by an `Env`
record of oracles.  The handlers are translated as pure functions of the
environment and the parsed request body; side effects (file writes, subprocess
invocations, temp-dir lifecycle) are recorded in an event trace so that
ordering, retry and file-system claims can be stated.
-/

/-- Python `str.splitlines`, restricted to the line terminators `\n`, `\r\n`
and `\r`: splits into lines, with no trailing empty line for a string that
ends in a terminator. -/
def splitlinesAux : List Char → List Char → List String
  | [], acc => if acc = [] then [] else [String.mk acc.reverse]
  | '\r' :: '\n' :: rest, acc => String.mk acc.reverse :: splitlinesAux rest []
  | '\n' :: rest, acc => String.mk acc.reverse :: splitlinesAux rest []
  | '\r' :: rest, acc => String.mk acc.reverse :: splitlinesAux rest []
  | c :: rest, acc => splitlinesAux rest (c :: acc)

/-- Python `s.splitlines()`. -/
def splitlines (s : String) : List String := splitlinesAux s.toList []

/-- Python `"\n".join(xs)`. -/
def joinLines : List String → String
  | [] => ""
  | [x] => x
  | x :: y :: rest => x ++ "\n" ++ joinLines (y :: rest)

/-- Concatenation of a list of strings (Python `"".join(xs)`); used for the
total text written to a stream. -/
def concatAll : List String → String
  | [] => ""
  | x :: rest => x ++ concatAll rest

/-- The base64 alphabet used by Python `base64.b64encode`. -/
def b64chars : List Char :=
  "ABCDEFGHIJKLMNOPQRSTUVWXYZabcdefghijklmnopqrstuvwxyz0123456789+/".toList

/-- Character of the base64 alphabet at index `n`. -/
def b64char (n : Nat) : Char := b64chars.getD n 'A'

/-- Python `base64.b64encode(bytes).decode("utf-8")` on a byte list
(each entry `< 256`), with `=` padding. -/
def b64encode : List Nat → String
  | [] => ""
  | [a] =>
      String.mk [b64char (a / 4 % 64), b64char (a % 4 * 16), '=', '=']
  | [a, b] =>
      String.mk [b64char (a / 4 % 64), b64char (a % 4 * 16 + b / 16 % 16),
                 b64char (b % 16 * 4), '=']
  | a :: b :: c :: rest =>
      String.mk [b64char (a / 4 % 64), b64char (a % 4 * 16 + b / 16 % 16),
                 b64char (b % 16 * 4 + c / 64 % 4), b64char (c % 64)]
        ++ b64encode rest

/-- Result of `subprocess.run`: return code, captured stdout and stderr. -/
structure SubprocResult where
  returncode : Int
  stdout : String
  stderr : String
deriving DecidableEq

/-- Oracles for everything outside the Python code under verification:
whether `pdf2svg` is on the PATH, what the `qpic` library prints (and whether
it raises), what the two subprocesses do, which files `pdflatex` drops into
its working directory, and the fresh temporary-directory path chosen by
`tempfile.TemporaryDirectory`. -/
structure Env where
  /-- `pdf2svg` is installed: invoking it does not raise `FileNotFoundError`. -/
  pdf2svgInstalled : Bool
  /-- The fresh directory path created by `tempfile.TemporaryDirectory()`. -/
  tempDirPath : String
  /-- Text `qpic.main` prints to `sys.stdout` given the input-file contents. -/
  qpicPrinted : String → String
  /-- `some msg` when `qpic.main` raises `Exception(msg)` (after printing). -/
  qpicExc : String → Option String
  /-- Result of `pdflatex -interaction=nonstopmode` on the given TeX source. -/
  pdflatexRun : String → SubprocResult
  /-- Names of the files `pdflatex` creates in its working directory
  (e.g. `output.pdf`, `output.log`, `output.aux`). -/
  pdflatexOutNames : List String
  /-- Bytes of `output.pdf` produced by a successful `pdflatex` run. -/
  pdfBytes : String → List Nat
  /-- Result of `pdf2svg` on the given PDF bytes. -/
  pdf2svgRun : List Nat → SubprocResult
  /-- Contents of the SVG file written by a successful `pdf2svg` run. -/
  svgText : List Nat → String

/-- `os.path.join(dir, name)` for a directory and a relative file name. -/
def joinPath (dir name : String) : String := dir ++ "/" ++ name

/-- Observable side effects of one request, in program order. -/
inductive Event where
  /-- `subprocess.run(["pdf2svg", "--version"], ...)` in `check_dependencies`. -/
  | checkDeps : Event
  /-- Entry of `with tempfile.TemporaryDirectory() as temp_dir`. -/
  | mkTempDir : String → Event
  /-- A file written at the given path with the given contents. -/
  | writeFile : String → String → Event
  /-- `qpic.main(qpic_file)` called on the given input text, stdout captured. -/
  | callQpic : String → Event
  /-- `pdflatex` run on the given TeX path with the given working directory. -/
  | runPdflatex : String → String → Event
  /-- `pdf2svg` run with the given PDF path and SVG output path. -/
  | runPdf2svg : String → String → Event
  /-- The PDF read in binary mode and base64-encoded. -/
  | readPdfBase64 : String → Event
  /-- The SVG read as text. -/
  | readSvg : String → Event
  /-- Exit of the `with` block: the temporary directory tree is deleted. -/
  | rmTempDir : String → Event
deriving DecidableEq

/-- The dictionary returned by `invoke_qpic`: each Python key is an optional
field (`none` when the key is absent from the dict). -/
structure InvokeDict where
  tikz : Option String
  pdf : Option String
  svg : Option String
  error : Option String
deriving DecidableEq

/-- A parsed JSON object body: an association list of string fields.
`request.get_json()` returning `None` is modelled as `Option.none` at the
call sites. -/
abbrev JsonObj := List (String × String)

/-- Python `dict.get(k)`: first value bound to the key, else `None`. -/
def jsonGet (d : JsonObj) (k : String) : Option String :=
  match d with
  | [] => none
  | (k1, v) :: rest => if k1 = k then some v else jsonGet rest k

/-- An HTTP response: a JSON body with a status, a plain-text body with a
status, or a Flask error page for an exception that escaped the handler. -/
inductive Response where
  | json : Nat → JsonObj → Response
  | text : Nat → String → Response
  /-- An unhandled exception propagating out of the view function; Flask
  answers with a 500 error page carrying the given message. -/
  | unhandled : String → Response
deriving DecidableEq

/-- HTTP status of a response (500 for an unhandled exception). -/
def Response.statusOf : Response → Nat
  | .json s _ => s
  | .text s _ => s
  | .unhandled _ => 500

/-- The `error` field of a JSON response body, if any. -/
def Response.errField : Response → Option String
  | .json _ b => jsonGet b "error"
  | _ => none

/-- The response is a JSON response (not a plain-text or error page). -/
def Response.isJsonResponse : Response → Bool
  | .json _ _ => true
  | _ => false

/-- `check_dependencies` (app.py:45-54): runs `pdf2svg --version`, returns
`False` exactly when that raises `FileNotFoundError` (the tool is absent). -/
def check_dependencies (env : Env) : Bool := env.pdf2svgInstalled

/-- The error message `invoke_qpic` returns when `check_dependencies` fails. -/
def pdf2svgMissingMsg : String := "pdf2svg is not installed. Please install it first."

/-- The TeX wrapper written by `invoke_qpic` (app.py:87-93): the fixed
`standalone`/`tikz` template with the joined captured output spliced in. -/
def texTemplate (tikz : String) : String :=
  "\n\\documentclass{standalone}\n\\usepackage{tikz}\n\\begin{document}\n"
    ++ tikz ++ "\n\\end{document}\n"

/-- `invoke_qpic` (app.py:56-138), returning the result dict and the trace of
side effects.  Mirrors the source: dependency check; temp dir; write
`input.qpic`; run `qpic.main` under `Capturing`; fail if no output; write
`output.tex` from the template; `pdflatex` (cwd = temp dir); `pdf2svg`; read
the PDF (base64) and the SVG; every exception is caught and turned into a
dict with an `error` key (plus the joined `tikz` when the capture list was
already bound).  The `with` block deletes the temporary directory on every
path that entered it, before the `except` handler runs. -/
def invoke_qpic (env : Env) (qpic_code : String) : InvokeDict × List Event :=
  if check_dependencies env then
    let dir := env.tempDirPath
    let qpicPath := joinPath dir "input.qpic"
    let texPath := joinPath dir "output.tex"
    let pdfPath := joinPath dir "output.pdf"
    let svgPath := joinPath dir "output.svg"
    let tikz_output := splitlines (env.qpicPrinted qpic_code)
    let tikzJoined := joinLines tikz_output
    let tr := [Event.checkDeps, Event.mkTempDir dir,
               Event.writeFile qpicPath qpic_code, Event.callQpic qpic_code]
    match env.qpicExc qpic_code with
    | some msg =>
        (⟨some tikzJoined, none, none, some msg⟩, tr ++ [Event.rmTempDir dir])
    | none =>
        if tikz_output = [] then
          (⟨some tikzJoined, none, none, some "No output generated from Qpic"⟩,
           tr ++ [Event.rmTempDir dir])
        else
          let texContent := texTemplate tikzJoined
          let latexRes := env.pdflatexRun texContent
          let tr2 := tr ++ [Event.writeFile texPath texContent,
                            Event.runPdflatex texPath dir]
          if latexRes.returncode ≠ 0 then
            (⟨some tikzJoined, none, none,
              some ("PDF conversion failed: " ++ latexRes.stderr)⟩,
             tr2 ++ [Event.rmTempDir dir])
          else
            let pdf := env.pdfBytes texContent
            let svgRes := env.pdf2svgRun pdf
            let tr3 := tr2 ++ [Event.runPdf2svg pdfPath svgPath]
            if svgRes.returncode ≠ 0 then
              (⟨some tikzJoined, none, none,
                some ("SVG conversion failed: " ++ svgRes.stderr)⟩,
               tr3 ++ [Event.rmTempDir dir])
            else
              (⟨some tikzJoined, some (b64encode pdf), some (env.svgText pdf), none⟩,
               tr3 ++ [Event.readPdfBase64 pdfPath, Event.readSvg svgPath,
                       Event.rmTempDir dir])
  else
    (⟨none, none, none, some pdf2svgMissingMsg⟩, [Event.checkDeps])

/-- `checkPoint` (app.py:140-143): the `/check_point` health-check handler. -/
def checkPoint : Response := Response.text 200 "Server is OK!"

/-- `stim_to_qpic` (app.py:145-153): the `/api/stim-to-qpic` handler on the
parsed JSON body (`none` = `get_json()` returned `None`).  There is no guard
on `data`, so a `None` body hits `None.get(...)` and the `AttributeError`
escapes the view unhandled; a falsy `stimCode` yields 400; otherwise the stub
conversion string is returned.  No pipeline step runs, so the trace is empty. -/
def stim_to_qpic (data : Option JsonObj) : Response × List Event :=
  match data with
  | none =>
      (Response.unhandled "AttributeError: NoneType object has no attribute get", [])
  | some d =>
      match jsonGet d "stimCode" with
      | none => (Response.json 400 [("error", "stimCode is required")], [])
      | some s =>
          if s = "" then (Response.json 400 [("error", "stimCode is required")], [])
          else (Response.json 200 [("qpicCode", "Converted Qpic Code: " ++ s)], [])

/-- `qpic_to_svg` (app.py:155-176): the `/api/qpic-to-svg` handler on the
parsed JSON body.  A `None` or empty (falsy) body yields 400; a missing or
falsy `qpicCode` yields 400; otherwise `invoke_qpic` runs and an `error` key
in its dict yields 400 with that message, else 200 with `svgResult` and
`tikzCode`. -/
def qpic_to_svg (env : Env) (data : Option JsonObj) : Response × List Event :=
  match data with
  | none => (Response.json 400 [("error", "No JSON data received")], [])
  | some d =>
      if d = [] then (Response.json 400 [("error", "No JSON data received")], [])
      else
        match jsonGet d "qpicCode" with
        | none => (Response.json 400 [("error", "qpicCode is required")], [])
        | some code =>
            if code = "" then
              (Response.json 400 [("error", "qpicCode is required")], [])
            else
              let r := invoke_qpic env code
              match r.1.error with
              | some e => (Response.json 400 [("error", e)], r.2)
              | none =>
                  (Response.json 200 [("svgResult", r.1.svg.getD ""),
                                      ("tikzCode", r.1.tikz.getD "")], r.2)

/-- A registered Flask route: URL rule and declared methods. -/
structure Route where
  path : String
  methods : List String
deriving DecidableEq

/-- The route table of the application, one entry per `@app.route` decorator
in app.py (a route with no `methods` argument defaults to GET). -/
def routes : List Route :=
  [⟨"/check_point", ["GET"]⟩,
   ⟨"/api/stim-to-qpic", ["POST"]⟩,
   ⟨"/api/qpic-to-svg", ["POST"]⟩]

/-! ### The `Capturing` context manager (app.py:34-43)

`Capturing` is a `list` subclass.  `__enter__` saves `sys.stdout` into
`self._stdout` and rebinds `sys.stdout` to a fresh empty `StringIO` (also kept
in `self._stringio`); `__exit__` extends the list with
`self._stringio.getvalue().splitlines()` and restores `sys.stdout`.
The state below carries the current `sys.stdout` binding (either the original
stream object, of an abstract type, or the in-memory buffer - the buffer
doubles as `self._stringio`, which aliases `sys.stdout` throughout a block
whose body only writes), the saved `self._stdout`, and the list contents. -/

/-- Joint state of `sys.stdout` and one `Capturing` instance. -/
structure CaptureState (α : Type) where
  /-- Current `sys.stdout`: `Sum.inl o` is an ordinary stream object,
  `Sum.inr buf` is the in-memory `StringIO` with its buffer contents. -/
  sysStdout : Sum α String
  /-- `self._stdout`, once `__enter__` has saved it. -/
  savedStdout : Option (Sum α String)
  /-- The contents of the `Capturing` list itself. -/
  items : List String
deriving DecidableEq

/-- `Capturing.__enter__`: save `sys.stdout`, rebind it to an empty buffer. -/
def capEnter {α : Type} (s : CaptureState α) : CaptureState α :=
  { s with savedStdout := some s.sysStdout, sysStdout := Sum.inr "" }

/-- A write of `t` to `sys.stdout` (what `print` inside the block does). -/
def capWrite {α : Type} (t : String) (s : CaptureState α) : CaptureState α :=
  match s.sysStdout with
  | Sum.inr b => { s with sysStdout := Sum.inr (b ++ t) }
  | Sum.inl _ => s

/-- The block body: a sequence of writes to `sys.stdout`. -/
def capWrites {α : Type} (writes : List String) (s : CaptureState α) : CaptureState α :=
  writes.foldl (fun st t => capWrite t st) s

/-- `Capturing.__exit__`: extend the list with the split lines of the buffer,
restore `sys.stdout` from `self._stdout`. -/
def capExit {α : Type} (s : CaptureState α) : CaptureState α :=
  let buf := match s.sysStdout with
    | Sum.inr b => b
    | Sum.inl _ => ""
  { items := s.items ++ splitlines buf,
    sysStdout := s.savedStdout.getD s.sysStdout,
    savedStdout := none }

/-- How the block body finishes: normally, or by raising an exception. -/
inductive ExitKind where
  | normal : ExitKind
  | viaExc : ExitKind
deriving DecidableEq

/-- One full `with Capturing() as x:` block whose body performs the given
writes and then finishes as `k` says.  The context-manager protocol invokes
`__exit__` on both the normal and the exceptional path, and
`Capturing.__exit__` ignores its arguments and returns `None` (so it never
suppresses the exception); hence the resulting state does not depend on `k`. -/
def runCapturing {α : Type} (s : CaptureState α) (writes : List String)
    (_ : ExitKind) : CaptureState α :=
  capExit (capWrites writes (capEnter s))

/-! ### Trace helpers: created files, temp-dir cleanup, event counts -/

/-- File paths a single event creates on disk.  An explicit write creates its
path; `pdflatex` creates its output files in its working directory (the code
passes `cwd=temp_dir`); `pdf2svg` creates the SVG at the path it is given. -/
def eventCreated (env : Env) : Event → List String
  | Event.writeFile p _ => [p]
  | Event.runPdflatex _ cwd => env.pdflatexOutNames.map (fun n => joinPath cwd n)
  | Event.runPdf2svg _ svgPath => [svgPath]
  | _ => []

/-- All file paths created over a trace, in order. -/
def createdPaths (env : Env) : List Event → List String
  | [] => []
  | e :: rest => eventCreated env e ++ createdPaths env rest

/-- A path survives the `TemporaryDirectory` cleanup exactly when it is not
inside the temporary directory tree. -/
def cleanupKeeps (dir p : String) : Bool :=
  ! List.isPrefixOf (dir ++ "/").data p.data

/-- The set of file paths present after a `/api/qpic-to-svg` request is fully
served: the paths present before plus the paths the request created, minus
everything under the temporary directory (deleted when the `with` block
exits, on success and on error alike). -/
def fsAfterRequest (env : Env) (fs0 : List String) (data : Option JsonObj) :
    List String :=
  (fs0 ++ createdPaths env (qpic_to_svg env data).2).filter
    (cleanupKeeps env.tempDirPath)

/-- Number of events in a trace satisfying `p`. -/
def countEvents (p : Event → Bool) : List Event → Nat
  | [] => 0
  | e :: rest => (if p e then 1 else 0) + countEvents p rest

/-- The event is an invocation of `pdflatex`. -/
def isPdflatexEvt : Event → Bool
  | Event.runPdflatex _ _ => true
  | _ => false

/-- The event is an invocation of `pdf2svg` on a PDF. -/
def isPdf2svgEvt : Event → Bool
  | Event.runPdf2svg _ _ => true
  | _ => false

/-- The event is a call of `qpic.main`. -/
def isQpicEvt : Event → Bool
  | Event.callQpic _ => true
  | _ => false

/-! ### Derived views of the pipeline data for one request -/

/-- The captured `tikz_output` list for the given input. -/
def tikzOf (env : Env) (code : String) : List String :=
  splitlines (env.qpicPrinted code)

/-- The TeX source written to `output.tex` for the given input. -/
def texOf (env : Env) (code : String) : String :=
  texTemplate (joinLines (tikzOf env code))

/-- The `pdflatex` result for the given input. -/
def latexResOf (env : Env) (code : String) : SubprocResult :=
  env.pdflatexRun (texOf env code)

/-- The PDF bytes produced for the given input. -/
def pdfOf (env : Env) (code : String) : List Nat :=
  env.pdfBytes (texOf env code)

/-- The `pdf2svg` result for the given input. -/
def svgRunOf (env : Env) (code : String) : SubprocResult :=
  env.pdf2svgRun (pdfOf env code)

/-- The SVG text produced for the given input. -/
def svgOf (env : Env) (code : String) : String :=
  env.svgText (pdfOf env code)

/-! ### Concrete environments, used to instantiate proved theorems -/

/-- An environment in which every external step succeeds. -/
def envOK : Env :=
  ⟨true, "/tmp/qpicwork",
   fun _ => "line1\nline2\n",
   fun _ => none,
   fun _ => ⟨0, "", ""⟩,
   ["output.pdf", "output.log", "output.aux"],
   fun _ => [37, 80, 68, 70],
   fun _ => ⟨0, "", ""⟩,
   fun _ => "svg-content"⟩

/-- An environment in which `pdf2svg` is not installed. -/
def envNoDep : Env :=
  ⟨false, "/tmp/qpicwork",
   fun _ => "line1\n",
   fun _ => none,
   fun _ => ⟨0, "", ""⟩,
   ["output.pdf"],
   fun _ => [37],
   fun _ => ⟨0, "", ""⟩,
   fun _ => "svg-content"⟩

/-- An environment in which `pdflatex` exits with a non-zero return code. -/
def envLatexFail : Env :=
  ⟨true, "/tmp/qpicwork",
   fun _ => "line1\n",
   fun _ => none,
   fun _ => ⟨1, "", "latex exploded"⟩,
   ["output.log"],
   fun _ => [],
   fun _ => ⟨0, "", ""⟩,
   fun _ => "svg-content"⟩

/-- An environment in which `qpic` prints nothing. -/
def envNoOutput : Env :=
  ⟨true, "/tmp/qpicwork",
   fun _ => "",
   fun _ => none,
   fun _ => ⟨0, "", ""⟩,
   ["output.pdf"],
   fun _ => [37],
   fun _ => ⟨0, "", ""⟩,
   fun _ => "svg-content"⟩

/-! ### General helper lemmas -/

/-- Appending to the empty string is the identity. -/
theorem str_empty_append (s : String) : "" ++ s = s := by
  cases s
  rfl

/-- A list is a Boolean prefix of itself followed by anything. -/
theorem isPrefixOf_append_self (l t : List Char) :
    List.isPrefixOf l (l ++ t) = true := by
  induction l with
  | nil => simp [List.isPrefixOf]
  | cons a as ih => simp [List.isPrefixOf, ih]

/-- A path inside the temporary directory does not survive the cleanup. -/
theorem cleanupKeeps_under (dir rest : String) :
    cleanupKeeps dir (dir ++ "/" ++ rest) = false := by
  unfold cleanupKeeps
  have h : (dir ++ "/" ++ rest).data = (dir ++ "/").data ++ rest.data := by
    cases dir ++ "/"
    cases rest
    rfl
  rw [h, isPrefixOf_append_self]
  rfl

/-! ### Helper lemmas about `invoke_qpic` and `qpic_to_svg` -/

/-- `invoke_qpic` when `pdf2svg` is missing: the bare error dict, and only the
dependency check happened. -/
theorem invoke_qpic_dep (env : Env) (code : String)
    (h : env.pdf2svgInstalled = false) :
    invoke_qpic env code =
      (⟨none, none, none, some pdf2svgMissingMsg⟩, [Event.checkDeps]) := by
  unfold invoke_qpic check_dependencies
  rw [h]
  simp

/-- `invoke_qpic` when every external step succeeds: the full result dict and
the complete event trace, in program order. -/
theorem invoke_qpic_success (env : Env) (code : String)
    (hdep : env.pdf2svgInstalled = true)
    (hexc : env.qpicExc code = none)
    (htikz : tikzOf env code ≠ [])
    (hlatex : (latexResOf env code).returncode = 0)
    (hsvgrc : (svgRunOf env code).returncode = 0) :
    invoke_qpic env code =
      (⟨some (joinLines (tikzOf env code)), some (b64encode (pdfOf env code)),
        some (svgOf env code), none⟩,
       [Event.checkDeps, Event.mkTempDir env.tempDirPath,
        Event.writeFile (joinPath env.tempDirPath "input.qpic") code,
        Event.callQpic code,
        Event.writeFile (joinPath env.tempDirPath "output.tex") (texOf env code),
        Event.runPdflatex (joinPath env.tempDirPath "output.tex") env.tempDirPath,
        Event.runPdf2svg (joinPath env.tempDirPath "output.pdf")
          (joinPath env.tempDirPath "output.svg"),
        Event.readPdfBase64 (joinPath env.tempDirPath "output.pdf"),
        Event.readSvg (joinPath env.tempDirPath "output.svg"),
        Event.rmTempDir env.tempDirPath]) := by
  unfold invoke_qpic check_dependencies
  rw [hdep, hexc]
  simp only [tikzOf, texOf, latexResOf, svgRunOf, pdfOf, svgOf] at htikz hlatex hsvgrc ⊢
  simp [htikz, hlatex, hsvgrc, texOf, tikzOf]

/-- Whenever one of the pipeline steps fails (tool absent, empty qpic output,
or a non-zero return code from either subprocess), the dict returned by
`invoke_qpic` carries an `error` key, whichever failure happens first. -/
theorem invoke_qpic_fail (env : Env) (code : String)
    (h : env.pdf2svgInstalled = false ∨ tikzOf env code = [] ∨
         (latexResOf env code).returncode ≠ 0 ∨
         (svgRunOf env code).returncode ≠ 0) :
    ∃ e, (invoke_qpic env code).1.error = some e := by
  unfold invoke_qpic check_dependencies
  cases hdep : env.pdf2svgInstalled with
  | false => exact ⟨pdf2svgMissingMsg, by simp⟩
  | true =>
    simp only [if_true]
    cases hexc : env.qpicExc code with
    | some msg => exact ⟨msg, by simp⟩
    | none =>
      by_cases htikz : splitlines (env.qpicPrinted code) = []
      · exact ⟨"No output generated from Qpic", by simp [htikz]⟩
      · by_cases hlatex :
          (env.pdflatexRun (texTemplate (joinLines (splitlines (env.qpicPrinted code))))).returncode ≠ 0
        · exact ⟨"PDF conversion failed: " ++
            (env.pdflatexRun (texTemplate (joinLines (splitlines (env.qpicPrinted code))))).stderr,
            by simp [htikz, hlatex]⟩
        · have hsvg : (svgRunOf env code).returncode ≠ 0 := by
            rcases h with h | h | h | h
            · rw [hdep] at h; cases h
            · rw [tikzOf] at h; exact absurd h htikz
            · rw [latexResOf, texOf, tikzOf] at h; exact absurd h hlatex
            · exact h
          rw [svgRunOf, pdfOf, texOf, tikzOf] at hsvg
          exact ⟨"SVG conversion failed: " ++
            (env.pdf2svgRun (env.pdfBytes
              (texTemplate (joinLines (splitlines (env.qpicPrinted code)))))).stderr,
            by simp [htikz, hlatex, hsvg]⟩

/-- A dict with a `qpicCode` binding is neither `[]` nor without the key. -/
theorem jsonGet_ne_nil {d : JsonObj} {k : String} {v : String}
    (h : jsonGet d k = some v) : d ≠ [] := by
  intro hd
  subst hd
  cases h

/-- Reduction of `qpic_to_svg` on a body carrying a truthy `qpicCode`:
the handler defers entirely to `invoke_qpic`. -/
theorem qpic_to_svg_some (env : Env) (d : JsonObj) (code : String)
    (hget : jsonGet d "qpicCode" = some code) (hcode : code ≠ "") :
    qpic_to_svg env (some d) =
      (match (invoke_qpic env code).1.error with
       | some e => (Response.json 400 [("error", e)], (invoke_qpic env code).2)
       | none =>
           (Response.json 200 [("svgResult", (invoke_qpic env code).1.svg.getD ""),
                               ("tikzCode", (invoke_qpic env code).1.tikz.getD "")],
            (invoke_qpic env code).2)) := by
  have hd := jsonGet_ne_nil hget
  simp only [qpic_to_svg, hget, if_neg hd, if_neg hcode]

/-- Error case of `qpic_to_svg`: an `error` key in the `invoke_qpic` dict
becomes a 400 JSON response whose body is exactly that one error field. -/
theorem qpic_to_svg_error (env : Env) (d : JsonObj) (code e : String)
    (hget : jsonGet d "qpicCode" = some code) (hcode : code ≠ "")
    (herr : (invoke_qpic env code).1.error = some e) :
    qpic_to_svg env (some d) =
      (Response.json 400 [("error", e)], (invoke_qpic env code).2) := by
  rw [qpic_to_svg_some env d code hget hcode, herr]

/-- Each pipeline step is invoked at most once on any `invoke_qpic` trace. -/
theorem invoke_trace_counts (env : Env) (code : String) :
    countEvents isQpicEvt (invoke_qpic env code).2 ≤ 1 ∧
    countEvents isPdflatexEvt (invoke_qpic env code).2 ≤ 1 ∧
    countEvents isPdf2svgEvt (invoke_qpic env code).2 ≤ 1 := by
  simp only [invoke_qpic]
  split
  · split
    · simp [countEvents, isQpicEvt, isPdflatexEvt, isPdf2svgEvt]
    · split
      · simp [countEvents, isQpicEvt, isPdflatexEvt, isPdf2svgEvt]
      · split
        · simp [countEvents, isQpicEvt, isPdflatexEvt, isPdf2svgEvt]
        · split
          · simp [countEvents, isQpicEvt, isPdflatexEvt, isPdf2svgEvt]
          · simp [countEvents, isQpicEvt, isPdflatexEvt, isPdf2svgEvt]
  · simp [countEvents, isQpicEvt, isPdflatexEvt, isPdf2svgEvt]

/-- Each pipeline step is invoked at most once while serving any
`/api/qpic-to-svg` request. -/
theorem request_trace_counts (env : Env) (data : Option JsonObj) :
    countEvents isQpicEvt (qpic_to_svg env data).2 ≤ 1 ∧
    countEvents isPdflatexEvt (qpic_to_svg env data).2 ≤ 1 ∧
    countEvents isPdf2svgEvt (qpic_to_svg env data).2 ≤ 1 := by
  cases data with
  | none => simp [qpic_to_svg, countEvents]
  | some d =>
    simp only [qpic_to_svg]
    split
    · simp [countEvents]
    · split
      · simp [countEvents]
      · split
        · simp [countEvents]
        · split
          · exact invoke_trace_counts env _
          · exact invoke_trace_counts env _

/-- Every file path created on an `invoke_qpic` trace lies inside the
temporary directory. -/
theorem invoke_created_under_tmp (env : Env) (code : String) :
    ∀ p ∈ createdPaths env (invoke_qpic env code).2,
      ∃ rest, p = env.tempDirPath ++ "/" ++ rest := by
  simp only [invoke_qpic]
  split
  · split
    · intro p hp
      simp [createdPaths, eventCreated, joinPath] at hp
      exact ⟨"input.qpic", hp⟩
    · split
      · intro p hp
        simp [createdPaths, eventCreated, joinPath] at hp
        exact ⟨"input.qpic", hp⟩
      · split
        · intro p hp
          simp [createdPaths, eventCreated, joinPath] at hp
          rcases hp with hp | hp | ⟨n, _, hp⟩
          · exact ⟨"input.qpic", hp⟩
          · exact ⟨"output.tex", hp⟩
          · exact ⟨n, hp.symm⟩
        · split
          · intro p hp
            simp [createdPaths, eventCreated, joinPath] at hp
            rcases hp with hp | hp | ⟨n, _, hp⟩ | hp
            · exact ⟨"input.qpic", hp⟩
            · exact ⟨"output.tex", hp⟩
            · exact ⟨n, hp.symm⟩
            · exact ⟨"output.svg", hp⟩
          · intro p hp
            simp [createdPaths, eventCreated, joinPath] at hp
            rcases hp with hp | hp | ⟨n, _, hp⟩ | hp
            · exact ⟨"input.qpic", hp⟩
            · exact ⟨"output.tex", hp⟩
            · exact ⟨n, hp.symm⟩
            · exact ⟨"output.svg", hp⟩
  · intro p hp
    simp [createdPaths, eventCreated] at hp

/-- Every file path created while serving any `/api/qpic-to-svg` request lies
inside the temporary directory. -/
theorem request_created_under_tmp (env : Env) (data : Option JsonObj) :
    ∀ p ∈ createdPaths env (qpic_to_svg env data).2,
      ∃ rest, p = env.tempDirPath ++ "/" ++ rest := by
  cases data with
  | none => intro p hp; simp [qpic_to_svg, createdPaths] at hp
  | some d =>
    simp only [qpic_to_svg]
    split
    · intro p hp; simp [createdPaths] at hp
    · split
      · intro p hp; simp [createdPaths] at hp
      · split
        · intro p hp; simp [createdPaths] at hp
        · split
          · exact invoke_created_under_tmp env _
          · exact invoke_created_under_tmp env _

/-- Appending the empty string on the right is the identity. -/
theorem str_append_empty (s : String) : s ++ "" = s := by
  cases s with
  | mk l => show String.mk (l ++ []) = String.mk l; rw [List.append_nil]

/-- Running the writes of a block against a `StringIO` stdout accumulates
their concatenation in the buffer and touches nothing else. -/
theorem capWrites_inr {α : Type} (writes : List String) (b : String)
    (saved : Option (Sum α String)) (items : List String) :
    capWrites writes ⟨Sum.inr b, saved, items⟩ =
      ⟨Sum.inr (b ++ concatAll writes), saved, items⟩ := by
  induction writes generalizing b with
  | nil => simp [capWrites, concatAll, str_append_empty]
  | cons w ws ih =>
    have hstep : capWrites (w :: ws) (⟨Sum.inr b, saved, items⟩ : CaptureState α) =
        capWrites ws ⟨Sum.inr (b ++ w), saved, items⟩ := rfl
    rw [hstep, ih, concatAll, String.append_assoc]

/-! ### Claim theorems -/

/-- Claim C9: for a `with Capturing()` block (the instance starts as an empty
list), after the block exits - normally or via an exception, since the
context-manager protocol calls `__exit__` on both paths and `__exit__` never
suppresses - `sys.stdout` is restored to exactly the object it was bound to
before entry, and the `Capturing` list contains exactly the lines (split on
newlines) of everything printed to stdout inside the block, in order. -/
theorem capturing_restores_stdout_and_splits_lines {α : Type}
    (s0 : CaptureState α) (writes : List String) (k : ExitKind)
    (hfresh : s0.items = []) :
    (runCapturing s0 writes k).sysStdout = s0.sysStdout ∧
    (runCapturing s0 writes k).items = splitlines (concatAll writes) := by
  have henter : capEnter s0 = ⟨Sum.inr "", some s0.sysStdout, s0.items⟩ := rfl
  unfold runCapturing
  rw [henter, capWrites_inr, str_empty_append]
  unfold capExit
  simp [hfresh]

/-- Witness for C9 at a concrete block: previous stdout object `0`, body
writing `"a\nb"` then `"c\n"`, exiting via an exception. -/
theorem capturing_restores_stdout_and_splits_lines_witness :
    ((⟨Sum.inl 0, none, []⟩ : CaptureState Nat).items = []) ∧
    (runCapturing (⟨Sum.inl 0, none, []⟩ : CaptureState Nat)
        ["a\nb", "c\n"] ExitKind.viaExc).sysStdout = Sum.inl 0 ∧
    (runCapturing (⟨Sum.inl 0, none, []⟩ : CaptureState Nat)
        ["a\nb", "c\n"] ExitKind.viaExc).items =
      splitlines (concatAll ["a\nb", "c\n"]) :=
  ⟨rfl,
   (capturing_restores_stdout_and_splits_lines _ ["a\nb", "c\n"] ExitKind.viaExc rfl).1,
   (capturing_restores_stdout_and_splits_lines _ ["a\nb", "c\n"] ExitKind.viaExc rfl).2⟩

/-- Claim C10: a POST to `/api/stim-to-qpic` whose JSON body has a non-empty
`stimCode` string gets HTTP 200 with `qpicCode` equal to
`"Converted Qpic Code: "` followed verbatim by the submitted code; no
conversion pipeline step runs (the event trace is empty). -/
theorem stim_stub_response (d : JsonObj) (s : String)
    (hget : jsonGet d "stimCode" = some s) (hs : s ≠ "") :
    stim_to_qpic (some d) =
      (Response.json 200 [("qpicCode", "Converted Qpic Code: " ++ s)], []) := by
  simp only [stim_to_qpic, hget, if_neg hs]

/-- Witness for C10 at the body `{stimCode: "H 0"}`. -/
theorem stim_stub_response_witness :
    jsonGet [("stimCode", "H 0")] "stimCode" = some "H 0" ∧
    stim_to_qpic (some [("stimCode", "H 0")]) =
      (Response.json 200 [("qpicCode", "Converted Qpic Code: " ++ "H 0")], []) :=
  ⟨rfl, stim_stub_response [("stimCode", "H 0")] "H 0" rfl (by decide)⟩

/-- Claim C2 is false as stated: a POST body parsing to JSON `null` (so
`request.get_json()` returns `None`) is missing `stimCode`, yet
`/api/stim-to-qpic` dereferences `None.get` and the `AttributeError` escapes
the handler, producing HTTP 500, not a 400 JSON error. -/
theorem missing_field_yields_400_refuted :
    ¬ (∀ (env : Env) (data : Option JsonObj),
        ((∀ d, data = some d → jsonGet d "stimCode" = none) →
          (stim_to_qpic data).1.statusOf = 400 ∧
          ((stim_to_qpic data).1.errField).isSome = true) ∧
        ((∀ d, data = some d → jsonGet d "qpicCode" = none) →
          (qpic_to_svg env data).1.statusOf = 400 ∧
          ((qpic_to_svg env data).1.errField).isSome = true)) := by
  intro h
  have h2 := ((h envOK none).1 (fun d hd => by cases hd)).1
  simp [stim_to_qpic, Response.statusOf] at h2

/-- Claim C2 (amended): a POST to `/api/qpic-to-svg` missing `qpicCode` gets
HTTP 400 with a JSON error message whatever the rest of the body (including a
`None` or empty body); a POST to `/api/stim-to-qpic` missing `stimCode` gets
HTTP 400 with a JSON error message provided the parsed body is a JSON object,
while a body parsing to `None` instead raises an unhandled `AttributeError`
(HTTP 500). -/
theorem missing_field_yields_400 (env : Env) (data : Option JsonObj) (d : JsonObj)
    (hq : ∀ d0, data = some d0 → jsonGet d0 "qpicCode" = none)
    (hs : jsonGet d "stimCode" = none) :
    ((qpic_to_svg env data).1.statusOf = 400 ∧
     ((qpic_to_svg env data).1.errField).isSome = true) ∧
    (stim_to_qpic (some d)).1 = Response.json 400 [("error", "stimCode is required")] := by
  constructor
  · cases data with
    | none => simp [qpic_to_svg, Response.statusOf, Response.errField, jsonGet]
    | some d0 =>
      have h := hq d0 rfl
      by_cases hd0 : d0 = []
      · subst hd0
        simp [qpic_to_svg, Response.statusOf, Response.errField, jsonGet]
      · simp [qpic_to_svg, if_neg hd0, h, Response.statusOf, Response.errField, jsonGet]
  · simp [stim_to_qpic, hs]

/-- Witness for the amended C2: empty-object bodies missing both fields. -/
theorem missing_field_yields_400_witness :
    (jsonGet ([("other", "1")] : JsonObj) "stimCode" = none) ∧
    ((qpic_to_svg envOK (some [("other", "1")])).1.statusOf = 400 ∧
     ((qpic_to_svg envOK (some [("other", "1")])).1.errField).isSome = true) ∧
    (stim_to_qpic (some [("other", "1")])).1 =
      Response.json 400 [("error", "stimCode is required")] := by
  have h := missing_field_yields_400 envOK (some [("other", "1")]) [("other", "1")]
    (fun d0 hd0 => by cases hd0; rfl) rfl
  exact ⟨rfl, h.1, h.2⟩

/-- Claim C3: when `pdf2svg` is absent (its invocation raises
file-not-found), a POST to `/api/qpic-to-svg` with a `qpicCode` field does
not crash: the response is JSON with a descriptive error message naming
`pdf2svg`, under HTTP status 400. -/
theorem pdf2svg_absent_descriptive_error (env : Env) (d : JsonObj) (code : String)
    (hget : jsonGet d "qpicCode" = some code) (hcode : code ≠ "")
    (hdep : env.pdf2svgInstalled = false) :
    (qpic_to_svg env (some d)).1 = Response.json 400 [("error", pdf2svgMissingMsg)] ∧
    List.isPrefixOf "pdf2svg".data pdf2svgMissingMsg.data = true := by
  constructor
  · have h := qpic_to_svg_error env d code pdf2svgMissingMsg hget hcode
      (by rw [invoke_qpic_dep env code hdep])
    rw [h]
  · decide

/-- Witness for C3 in an environment without `pdf2svg`. -/
theorem pdf2svg_absent_descriptive_error_witness :
    jsonGet [("qpicCode", "X")] "qpicCode" = some "X" ∧
    envNoDep.pdf2svgInstalled = false ∧
    (qpic_to_svg envNoDep (some [("qpicCode", "X")])).1 =
      Response.json 400 [("error", pdf2svgMissingMsg)] :=
  ⟨rfl, rfl,
   (pdf2svg_absent_descriptive_error envNoDep [("qpicCode", "X")] "X" rfl
     (by decide) rfl).1⟩

/-- Claim C1: a POST to `/api/qpic-to-svg` whose JSON body carries a valid
circuit description in `qpicCode`, for which the qpic library, `pdflatex` and
`pdf2svg` all succeed (qpic returns normally having printed output, both
subprocesses exit 0, and `pdf2svg` writes its converted, hence non-empty, SVG
file) gets a success (200, no error key) JSON response whose `svgResult`
field is a non-empty SVG string. -/
theorem valid_circuit_yields_nonempty_svg (env : Env) (d : JsonObj) (code : String)
    (hget : jsonGet d "qpicCode" = some code) (hcode : code ≠ "")
    (hdep : env.pdf2svgInstalled = true)
    (hexc : env.qpicExc code = none)
    (htikz : tikzOf env code ≠ [])
    (hlatex : (latexResOf env code).returncode = 0)
    (hsvgrc : (svgRunOf env code).returncode = 0)
    (hsvg : svgOf env code ≠ "") :
    ∃ svg, svg ≠ "" ∧
      (qpic_to_svg env (some d)).1 =
        Response.json 200 [("svgResult", svg),
                           ("tikzCode", joinLines (tikzOf env code))] := by
  refine ⟨svgOf env code, hsvg, ?_⟩
  rw [qpic_to_svg_some env d code hget hcode,
      invoke_qpic_success env code hdep hexc htikz hlatex hsvgrc]
  rfl

/-- Witness for C1 in the all-successful environment. -/
theorem valid_circuit_yields_nonempty_svg_witness :
    jsonGet [("qpicCode", "X")] "qpicCode" = some "X" ∧
    tikzOf envOK "X" ≠ [] ∧
    ∃ svg, svg ≠ "" ∧
      (qpic_to_svg envOK (some [("qpicCode", "X")])).1 =
        Response.json 200 [("svgResult", svg),
                           ("tikzCode", joinLines (tikzOf envOK "X"))] :=
  ⟨rfl, by decide,
   valid_circuit_yields_nonempty_svg envOK [("qpicCode", "X")] "X" rfl (by decide)
     rfl rfl (by decide) rfl rfl (by decide)⟩

/-- Claim C4: if either subprocess of the pipeline (`pdflatex` or `pdf2svg`)
exits with a non-zero return code on a POST with a truthy `qpicCode`, the
error is caught and the endpoint answers with a JSON body carrying an `error`
field under HTTP 400 - never with an unhandled exception. -/
theorem subprocess_failure_surfaced (env : Env) (d : JsonObj) (code : String)
    (hget : jsonGet d "qpicCode" = some code) (hcode : code ≠ "")
    (hfail : (latexResOf env code).returncode ≠ 0 ∨
             (svgRunOf env code).returncode ≠ 0) :
    (qpic_to_svg env (some d)).1.isJsonResponse = true ∧
    (qpic_to_svg env (some d)).1.statusOf = 400 ∧
    ((qpic_to_svg env (some d)).1.errField).isSome = true := by
  obtain ⟨e, he⟩ := invoke_qpic_fail env code (Or.inr (Or.inr hfail))
  rw [qpic_to_svg_error env d code e hget hcode he]
  refine ⟨rfl, rfl, ?_⟩
  simp [Response.errField, jsonGet]

/-- Witness for C4 in an environment whose `pdflatex` exits with code 1. -/
theorem subprocess_failure_surfaced_witness :
    (latexResOf envLatexFail "X").returncode ≠ 0 ∧
    ((qpic_to_svg envLatexFail (some [("qpicCode", "X")])).1.isJsonResponse = true ∧
     (qpic_to_svg envLatexFail (some [("qpicCode", "X")])).1.statusOf = 400 ∧
     ((qpic_to_svg envLatexFail (some [("qpicCode", "X")])).1.errField).isSome = true) :=
  ⟨by decide,
   subprocess_failure_surfaced envLatexFail [("qpicCode", "X")] "X" rfl (by decide)
     (Or.inl (by decide))⟩

/-- Claim C5: on a successful POST to `/api/qpic-to-svg` the handling follows
exactly these steps in order: receive the text; dependency check; temp dir;
write the input file; call the qpic library capturing its printed output;
write the fixed document template containing that output; invoke `pdflatex`;
invoke `pdf2svg`; read the PDF (base64-encoding it) and the SVG; delete the
temp dir and return the JSON.  The second conjunct records that the steps the
spec lists occur in exactly that relative order on the trace. -/
theorem pipeline_steps_in_order (env : Env) (d : JsonObj) (code : String)
    (hget : jsonGet d "qpicCode" = some code) (hcode : code ≠ "")
    (hdep : env.pdf2svgInstalled = true)
    (hexc : env.qpicExc code = none)
    (htikz : tikzOf env code ≠ [])
    (hlatex : (latexResOf env code).returncode = 0)
    (hsvgrc : (svgRunOf env code).returncode = 0) :
    qpic_to_svg env (some d) =
      (Response.json 200 [("svgResult", svgOf env code),
                          ("tikzCode", joinLines (tikzOf env code))],
       [Event.checkDeps, Event.mkTempDir env.tempDirPath,
        Event.writeFile (joinPath env.tempDirPath "input.qpic") code,
        Event.callQpic code,
        Event.writeFile (joinPath env.tempDirPath "output.tex") (texOf env code),
        Event.runPdflatex (joinPath env.tempDirPath "output.tex") env.tempDirPath,
        Event.runPdf2svg (joinPath env.tempDirPath "output.pdf")
          (joinPath env.tempDirPath "output.svg"),
        Event.readPdfBase64 (joinPath env.tempDirPath "output.pdf"),
        Event.readSvg (joinPath env.tempDirPath "output.svg"),
        Event.rmTempDir env.tempDirPath]) ∧
    List.Sublist
      [Event.callQpic code,
       Event.writeFile (joinPath env.tempDirPath "output.tex") (texOf env code),
       Event.runPdflatex (joinPath env.tempDirPath "output.tex") env.tempDirPath,
       Event.runPdf2svg (joinPath env.tempDirPath "output.pdf")
         (joinPath env.tempDirPath "output.svg"),
       Event.readPdfBase64 (joinPath env.tempDirPath "output.pdf"),
       Event.readSvg (joinPath env.tempDirPath "output.svg")]
      (qpic_to_svg env (some d)).2 := by
  have hm : qpic_to_svg env (some d) =
      (Response.json 200 [("svgResult", svgOf env code),
                          ("tikzCode", joinLines (tikzOf env code))],
       [Event.checkDeps, Event.mkTempDir env.tempDirPath,
        Event.writeFile (joinPath env.tempDirPath "input.qpic") code,
        Event.callQpic code,
        Event.writeFile (joinPath env.tempDirPath "output.tex") (texOf env code),
        Event.runPdflatex (joinPath env.tempDirPath "output.tex") env.tempDirPath,
        Event.runPdf2svg (joinPath env.tempDirPath "output.pdf")
          (joinPath env.tempDirPath "output.svg"),
        Event.readPdfBase64 (joinPath env.tempDirPath "output.pdf"),
        Event.readSvg (joinPath env.tempDirPath "output.svg"),
        Event.rmTempDir env.tempDirPath]) := by
    rw [qpic_to_svg_some env d code hget hcode,
        invoke_qpic_success env code hdep hexc htikz hlatex hsvgrc]
    rfl
  refine ⟨hm, ?_⟩
  rw [hm]
  exact List.Sublist.cons _ (List.Sublist.cons _ (List.Sublist.cons _
    (List.Sublist.cons₂ _ (List.Sublist.cons₂ _ (List.Sublist.cons₂ _
      (List.Sublist.cons₂ _ (List.Sublist.cons₂ _ (List.Sublist.cons₂ _
        (List.Sublist.cons _ List.Sublist.slnil)))))))))

/-- Witness for C5 in the all-successful environment. -/
theorem pipeline_steps_in_order_witness :
    qpic_to_svg envOK (some [("qpicCode", "X")]) =
      (Response.json 200 [("svgResult", svgOf envOK "X"),
                          ("tikzCode", joinLines (tikzOf envOK "X"))],
       [Event.checkDeps, Event.mkTempDir envOK.tempDirPath,
        Event.writeFile (joinPath envOK.tempDirPath "input.qpic") "X",
        Event.callQpic "X",
        Event.writeFile (joinPath envOK.tempDirPath "output.tex") (texOf envOK "X"),
        Event.runPdflatex (joinPath envOK.tempDirPath "output.tex") envOK.tempDirPath,
        Event.runPdf2svg (joinPath envOK.tempDirPath "output.pdf")
          (joinPath envOK.tempDirPath "output.svg"),
        Event.readPdfBase64 (joinPath envOK.tempDirPath "output.pdf"),
        Event.readSvg (joinPath envOK.tempDirPath "output.svg"),
        Event.rmTempDir envOK.tempDirPath]) :=
  (pipeline_steps_in_order envOK [("qpicCode", "X")] "X" rfl (by decide)
    rfl rfl (by decide) rfl rfl).1

/-- Claim C6: the application exposes exactly the three routes registered in
app.py - the health check `/check_point`, the stub endpoint
`/api/stim-to-qpic` and the render endpoint `/api/qpic-to-svg` - and every
success (status 200) JSON answer of the render endpoint carries both a
`svgResult` and a `tikzCode` field. -/
theorem routes_and_render_shape :
    routes.map (fun r => r.path) =
      ["/check_point", "/api/stim-to-qpic", "/api/qpic-to-svg"] ∧
    routes.length = 3 ∧
    (∀ (env : Env) (data : Option JsonObj) (st : Nat) (body : JsonObj),
      (qpic_to_svg env data).1 = Response.json st body → st = 200 →
      (jsonGet body "svgResult").isSome = true ∧
      (jsonGet body "tikzCode").isSome = true) := by
  refine ⟨rfl, rfl, ?_⟩
  intro env data st body heq h200
  subst h200
  cases data with
  | none => simp [qpic_to_svg] at heq
  | some d =>
    simp only [qpic_to_svg] at heq
    split at heq
    · simp at heq
    · split at heq
      · simp at heq
      · split at heq
        · simp at heq
        · split at heq
          · simp at heq
          · simp only [Prod.fst] at heq
            injection heq with h1 h2
            subst h2
            simp [jsonGet]

/-- Witness for C6: a concrete successful render response. -/
theorem routes_and_render_shape_witness :
    (qpic_to_svg envOK (some [("qpicCode", "X")])).1 =
      Response.json 200 [("svgResult", "svg-content"), ("tikzCode", "line1\nline2")] ∧
    ((jsonGet [("svgResult", "svg-content"), ("tikzCode", "line1\nline2")]
        "svgResult").isSome = true ∧
     (jsonGet [("svgResult", "svg-content"), ("tikzCode", "line1\nline2")]
        "tikzCode").isSome = true) :=
  ⟨by decide,
   routes_and_render_shape.2.2 envOK (some [("qpicCode", "X")]) 200
     [("svgResult", "svg-content"), ("tikzCode", "line1\nline2")] (by decide) rfl⟩

/-- Claim C7: when any step of the pipeline fails (qpic producing no output,
`pdflatex` failing, `pdf2svg` failing or being absent) the whole request
fails: the response body is exactly one `error` field (no partial result such
as `svgResult`), and no step is retried (each of qpic, `pdflatex` and
`pdf2svg` appears at most once on the trace). -/
theorem failure_fails_whole_request (env : Env) (d : JsonObj) (code : String)
    (hget : jsonGet d "qpicCode" = some code) (hcode : code ≠ "")
    (hfail : env.pdf2svgInstalled = false ∨ tikzOf env code = [] ∨
             (latexResOf env code).returncode ≠ 0 ∨
             (svgRunOf env code).returncode ≠ 0) :
    (∃ e, (qpic_to_svg env (some d)).1 = Response.json 400 [("error", e)]) ∧
    countEvents isQpicEvt (qpic_to_svg env (some d)).2 ≤ 1 ∧
    countEvents isPdflatexEvt (qpic_to_svg env (some d)).2 ≤ 1 ∧
    countEvents isPdf2svgEvt (qpic_to_svg env (some d)).2 ≤ 1 := by
  obtain ⟨e, he⟩ := invoke_qpic_fail env code hfail
  refine ⟨⟨e, ?_⟩, request_trace_counts env _⟩
  rw [qpic_to_svg_error env d code e hget hcode he]

/-- Witness for C7 in an environment where qpic prints nothing. -/
theorem failure_fails_whole_request_witness :
    tikzOf envNoOutput "X" = [] ∧
    ((∃ e, (qpic_to_svg envNoOutput (some [("qpicCode", "X")])).1 =
        Response.json 400 [("error", e)]) ∧
     countEvents isQpicEvt (qpic_to_svg envNoOutput (some [("qpicCode", "X")])).2 ≤ 1 ∧
     countEvents isPdflatexEvt (qpic_to_svg envNoOutput (some [("qpicCode", "X")])).2 ≤ 1 ∧
     countEvents isPdf2svgEvt (qpic_to_svg envNoOutput (some [("qpicCode", "X")])).2 ≤ 1) :=
  ⟨by decide,
   failure_fails_whole_request envNoOutput [("qpicCode", "X")] "X" rfl (by decide)
     (Or.inr (Or.inl (by decide)))⟩

/-- Claim C8: every file-system artifact created while serving a
`/api/qpic-to-svg` request lies inside the single temporary directory, and
once the request completes (with success or error) no file created for it
persists: the file system is exactly as before, given that the temporary
directory was fresh (as `tempfile.TemporaryDirectory` guarantees). -/
theorem temp_artifacts_ephemeral (env : Env) (fs0 : List String)
    (data : Option JsonObj)
    (hfresh : ∀ p ∈ fs0, cleanupKeeps env.tempDirPath p = true) :
    (∀ p ∈ createdPaths env (qpic_to_svg env data).2,
       ∃ rest, p = env.tempDirPath ++ "/" ++ rest) ∧
    fsAfterRequest env fs0 data = fs0 := by
  refine ⟨request_created_under_tmp env data, ?_⟩
  unfold fsAfterRequest
  rw [List.filter_append]
  have h1 : fs0.filter (cleanupKeeps env.tempDirPath) = fs0 :=
    List.filter_eq_self.mpr hfresh
  have h2 : (createdPaths env (qpic_to_svg env data).2).filter
      (cleanupKeeps env.tempDirPath) = [] := by
    apply List.filter_eq_nil_iff.mpr
    intro p hp
    obtain ⟨rest, hrest⟩ := request_created_under_tmp env data p hp
    subst hrest
    simp [cleanupKeeps_under]
  rw [h1, h2, List.append_nil]

/-- Witness for C8: a file system holding one unrelated file. -/
theorem temp_artifacts_ephemeral_witness :
    (∀ p ∈ (["/etc/hosts"] : List String),
       cleanupKeeps envOK.tempDirPath p = true) ∧
    ((∀ p ∈ createdPaths envOK (qpic_to_svg envOK (some [("qpicCode", "X")])).2,
        ∃ rest, p = envOK.tempDirPath ++ "/" ++ rest) ∧
     fsAfterRequest envOK ["/etc/hosts"] (some [("qpicCode", "X")]) = ["/etc/hosts"]) :=
  ⟨by decide,
   temp_artifacts_ephemeral envOK ["/etc/hosts"] (some [("qpicCode", "X")])
     (by decide)⟩
